import Mathlib

/-!
Shallow embedding of the core logic of the Supply Chain Sentinel Agent
(`src/main.py`): the inventory table builder (`get_initial_data`), the
event simulator (`simulate_disruptive_events`), the status classifier
(`run_sentinel_agent`), the business-impact calculator
(`calculate_business_impact`), and the caller's history-append step.

Numeric modelling: pandas integer columns become `ℤ`, float columns (the
days-of-supply column and the money accumulators) become `ℚ`.  pandas
`Series.round(1)` rounds half to even, modelled exactly on `ℚ` by
`roundHalfEven`.  Python `int(...)` truncates toward zero, modelled by
`pyInt`.  Division by zero has no useful pandas analogue in this model, so
the classifier is `Option`-valued: `none` exactly when some row divides by
a zero daily consumption.

Randomness modelling: each call into Python's `random` module becomes an
explicit input.  One loop iteration of `simulate_disruptive_events` is an
`EventChoice` carrying the drawn event kind, grouping key and magnitude;
`validChoice` records the contracts of `random.choice`, `random.randint`
(inclusive bounds) and `random.uniform a b` (modelled as `[a, b)`, the
exact-real range of `a + (b-a)*random()`).
-/

set_option autoImplicit false
set_option maxRecDepth 4000

namespace Sentinel

/- Batteries marks the arithmetic on `Rat` `@[irreducible]`, which blocks
`decide` on concrete rational computations; lift that locally so the
concrete witnesses below evaluate. -/
attribute [local semireducible] Rat.add Rat.mul Rat.inv Rat.sub Rat.ofScientific

/-- One row of the supply-chain table, with the columns of `get_initial_data`
(`Days_of_Supply` is the derived column added on line 65). -/
structure Row where
  Component : String
  Supplier : String
  Origin : String
  Shipping_Lane : String
  Lead_Time_Days : ℤ
  On_Hand_Stock : ℤ
  Daily_Consumption : ℤ
  Revenue_Per_Unit : ℤ
  Secondary_Supplier : String
  Status : String
  Alerts : String
  Days_of_Supply : ℚ
deriving DecidableEq, Repr

/-- Python `int(q)`: truncation toward zero. -/
def pyInt (q : ℚ) : ℤ :=
  if 0 ≤ q then ⌊q⌋ else ⌈q⌉

/-- Round half to even, the rounding used by pandas `Series.round`. -/
def roundHalfEven (x : ℚ) : ℤ :=
  if x - ⌊x⌋ < 1/2 then ⌊x⌋
  else if 1/2 < x - ⌊x⌋ then ⌊x⌋ + 1
  else if ⌊x⌋ % 2 = 0 then ⌊x⌋ else ⌊x⌋ + 1

/-- `Series.round(1)`: round to one decimal place. -/
def round1 (x : ℚ) : ℚ :=
  (roundHalfEven (10 * x) : ℚ) / 10

/-- Python `"%.1f"`-style formatting of a nonnegative rational that is an
exact multiple of 1/10 (the only shape the classifier ever formats). -/
def fmt1 (q : ℚ) : String :=
  toString ⌊q⌋ ++ "." ++ toString (⌊10 * q⌋ % 10)

/-- `leadsWith n h`: the list `n` occurs at the start of `h`. -/
def leadsWith : List Char → List Char → Bool
  | [], _ => true
  | _ :: _, [] => false
  | a :: as, b :: bs => a == b && leadsWith as bs

/-- `occursIn n h`: the list `n` occurs contiguously somewhere in `h`;
`occursIn needle.data hay.data` models Python's `needle in hay` on strings. -/
def occursIn (n : List Char) : List Char → Bool
  | [] => leadsWith n []
  | b :: bs => leadsWith n (b :: bs) || occursIn n bs

/-- Python `needle in hay` for strings. -/
def strContains (hay needle : String) : Bool :=
  occursIn needle.data hay.data

/-- The eight hard-coded records of `get_initial_data` (lines 51-63), before
the derived days-of-supply column is filled in. -/
def baseData : List Row :=
  [ ⟨"CPU Model A", "Intel", "USA", "Trans-Pacific", 25, 15000, 500, 400, "AMD", "Nominal", "-", 0⟩,
    ⟨"GPU Model X", "Nvidia", "Taiwan", "Taiwan-US", 30, 8000, 250, 600, "AMD", "Nominal", "-", 0⟩,
    ⟨"16GB DDR5 RAM", "Micron", "Singapore", "Intra-Asia", 15, 40000, 1200, 80, "Hynix", "Nominal", "-", 0⟩,
    ⟨"1TB NVMe SSD", "Samsung", "South Korea", "Korea-US", 20, 25000, 800, 120, "Kioxia", "Nominal", "-", 0⟩,
    ⟨"Power Supply Unit", "Delta Electronics", "Taiwan", "Taiwan-US", 30, 18000, 600, 50, "Lite-On", "Nominal", "-", 0⟩,
    ⟨"Chassis Type B", "Foxconn", "China", "Intra-Asia", 12, 50000, 1500, 25, "Inventec", "Nominal", "-", 0⟩,
    ⟨"Motherboard Z", "ASUS", "Taiwan", "Taiwan-US", 28, 12000, 400, 150, "Gigabyte", "Nominal", "-", 0⟩,
    ⟨"Cooling Fan", "Nidec", "China", "Intra-Asia", 14, 80000, 2500, 10, "Sunon", "Nominal", "-", 0⟩ ]

/-- `get_initial_data` (lines 49-66): the eight hard-coded rows, with
`Days_of_Supply = On_Hand_Stock / Daily_Consumption` (line 65, unrounded). -/
def get_initial_data : List Row :=
  baseData.map fun r =>
    { r with Days_of_Supply := (r.On_Hand_Stock : ℚ) / (r.Daily_Consumption : ℚ) }

/-- The outcome of one iteration of the event loop (lines 79-113): the drawn
event kind, the drawn grouping key, and the drawn magnitude. -/
inductive EventChoice where
  | portCongestion (lane : String) (delay : ℤ)
  | geopoliticalTension (origin : String) (delay : ℤ)
  | productionSlowdown (supplier : String) (delay : ℤ)
  | demandSpike (component : String) (factor : ℚ)
deriving DecidableEq, Repr

/-- A perceived-event record (the dicts appended on lines 86, 94, 103, 111):
the event-type label plus the draws its detail string reports. -/
structure Event where
  type : String
  choice : EventChoice
deriving DecidableEq, Repr

/-- The event-type label each branch writes into its event dict. -/
def eventOf : EventChoice → Event
  | .portCongestion lane delay =>
      ⟨"Port Congestion 港口拥堵", .portCongestion lane delay⟩
  | .geopoliticalTension origin delay =>
      ⟨"Geopolitical Tension 地缘政治紧张", .geopoliticalTension origin delay⟩
  | .productionSlowdown supplier delay =>
      ⟨"Production Slowdown 生产放缓", .productionSlowdown supplier delay⟩
  | .demandSpike component factor =>
      ⟨"Demand Spike 需求激增", .demandSpike component factor⟩

/-- The per-row effect of one event (the `df.loc[mask, col] op= v` updates on
lines 85, 93, 102, 110).  The demand-spike branch applies `int(...)` to the
one-element selection; component names are unique in the table, so the
per-row form is the same update. -/
def applyEventRow (c : EventChoice) (r : Row) : Row :=
  match c with
  | .portCongestion lane delay =>
      if r.Shipping_Lane = lane then
        { r with Lead_Time_Days := r.Lead_Time_Days + delay } else r
  | .geopoliticalTension origin delay =>
      if r.Origin = origin then
        { r with Lead_Time_Days := r.Lead_Time_Days + delay } else r
  | .productionSlowdown supplier delay =>
      if r.Supplier = supplier then
        { r with Lead_Time_Days := r.Lead_Time_Days + delay } else r
  | .demandSpike component factor =>
      if r.Component = component then
        { r with Daily_Consumption := pyInt ((r.Daily_Consumption : ℚ) * factor) } else r

/-- One event applied to the whole table. -/
def applyEvent (df : List Row) (c : EventChoice) : List Row :=
  df.map (applyEventRow c)

/-- The contract of the random draws behind one `EventChoice`:
`random.choice(column.unique())` returns a value occurring in the column,
`random.randint(a, b)` lands in `[a, b]`, and `random.uniform(1.20, 1.50)`
lands in `[1.20, 1.50)`.  The key columns are never mutated by any event, so
membership in the table at hand is membership throughout the run. -/
def validChoice (df : List Row) : EventChoice → Prop
  | .portCongestion lane delay =>
      lane ∈ df.map Row.Shipping_Lane ∧ 5 ≤ delay ∧ delay ≤ 10
  | .geopoliticalTension origin delay =>
      origin ∈ df.map Row.Origin ∧ 7 ≤ delay ∧ delay ≤ 12
  | .productionSlowdown supplier delay =>
      supplier ∈ df.map Row.Supplier ∧ 4 ≤ delay ∧ delay ≤ 8
  | .demandSpike component factor =>
      component ∈ df.map Row.Component ∧ 6/5 ≤ factor ∧ factor < 3/2

instance (df : List Row) (c : EventChoice) : Decidable (validChoice df c) := by
  cases c <;> · unfold validChoice; infer_instance

/-- `simulate_disruptive_events` (lines 69-115) with the random draws made
explicit: the loop applies each drawn event to the table and appends its
event record.  `random.randint(1, 2)` on line 72 makes `choices` a list of
length 1 or 2; that contract lives in the theorems' hypotheses. -/
def simulate_disruptive_events (df : List Row) (choices : List EventChoice) :
    List Row × List Event :=
  choices.foldl (fun acc c => (applyEvent acc.1 c, acc.2 ++ [eventOf c])) (df, [])

/-- Line 121's per-row value: `(On_Hand_Stock / Daily_Consumption).round(1)`. -/
def dosOf (r : Row) : ℚ :=
  round1 ((r.On_Hand_Stock : ℚ) / (r.Daily_Consumption : ℚ))

/-- Line 124: `projected_supply_at_reorder_point`. -/
def projectedOf (r : Row) : ℚ :=
  dosOf r - (r.Lead_Time_Days : ℚ)

/-- The alert written on line 128, for a given (positive) shortfall. -/
def criticalAlert (shortfall : ℚ) : String :=
  "ACTION: Projected shortfall of " ++ fmt1 shortfall ++
    " days. Expedite next shipment via Air Freight."

/-- The alert written on line 131 (`critical_threshold_days` is 15). -/
def warningAlert : String :=
  "WARNING: Supply below 15-day threshold. Monitor closely."

/-- Per-row body of `run_sentinel_agent`'s loop (lines 123-134), together
with the row's share of the recomputation on line 121.  `none` exactly when
the row's daily consumption is zero, the unguarded division of line 121. -/
def classifyRow (r : Row) : Option Row :=
  if r.Daily_Consumption = 0 then none
  else if projectedOf r < 0 then
    some { r with Days_of_Supply := dosOf r, Status := "CRITICAL",
                  Alerts := criticalAlert (-(projectedOf r)) }
  else if dosOf r < 15 then
    some { r with Days_of_Supply := dosOf r, Status := "WARNING",
                  Alerts := warningAlert }
  else
    some { r with Days_of_Supply := dosOf r, Status := "Nominal", Alerts := "-" }

/-- `run_sentinel_agent` (lines 118-136): recompute the rounded
days-of-supply column and classify every row. -/
def run_sentinel_agent : List Row → Option (List Row)
  | [] => some []
  | r :: rs =>
    match classifyRow r, run_sentinel_agent rs with
    | some r', some rs' => some (r' :: rs')
    | _, _ => none

/-- `AIR_FREIGHT_PREMIUM_PER_SHIPMENT` (line 141). -/
def AIR_FREIGHT_PREMIUM_PER_SHIPMENT : ℚ := 120000

/-- The loop body of `calculate_business_impact` (lines 148-154), acting on
the (loss, cost) accumulator pair. -/
def impactStep (acc : ℚ × ℚ) (r : Row) : ℚ × ℚ :=
  if strContains r.Alerts "Projected shortfall" then
    if (r.Lead_Time_Days : ℚ) - r.Days_of_Supply > 0 then
      (acc.1 + ((r.Lead_Time_Days : ℚ) - r.Days_of_Supply) *
         ((r.Daily_Consumption : ℚ) * (r.Revenue_Per_Unit : ℚ)),
       acc.2 + AIR_FREIGHT_PREMIUM_PER_SHIPMENT)
    else acc
  else acc

/-- `calculate_business_impact` (lines 139-157): filter to CRITICAL rows,
accumulate loss and mitigation cost over them, return the triple. -/
def calculate_business_impact (df : List Row) : ℚ × ℚ × ℚ :=
  let critical_items := df.filter fun r => r.Status == "CRITICAL"
  let acc := critical_items.foldl impactStep (0, 0)
  (acc.1, acc.2, acc.1 - acc.2)

/-- The caller's history-append step (lines 207-211): run number is the
previous history length plus one, and the recorded net value is
`impact[2] if impact[2] > 0 else 0`. -/
def historyAppend (history : List (ℕ × ℚ)) (impact : ℚ × ℚ × ℚ) : List (ℕ × ℚ) :=
  history ++ [(history.length + 1, if impact.2.2 > 0 then impact.2.2 else 0)]

/-- One simulation run as wired on lines 200-204: simulate events on the
base table, classify, compute the impact triple. -/
def run_simulation (df : List Row) (choices : List EventChoice) :
    Option (List Row × List Event × (ℚ × ℚ × ℚ)) :=
  let sim := simulate_disruptive_events df choices
  (run_sentinel_agent sim.1).map fun classified =>
    (classified, sim.2, calculate_business_impact classified)

/-! ### Specification-side definitions

The definitions below restate the spec's and claims' wording, to be
compared with the source-translated functions above. -/

/-- Spec wording of the per-row classifier contract: the recomputed
days-of-supply, totality over the three statuses, the if-and-only-if
priority rule, and the alert attached to each status. -/
def rowSpec (r r' : Row) : Prop :=
  r'.Days_of_Supply = dosOf r ∧
  (r'.Status = "CRITICAL" ∨ r'.Status = "WARNING" ∨ r'.Status = "Nominal") ∧
  (r'.Status = "CRITICAL" ↔ projectedOf r < 0) ∧
  (r'.Status = "WARNING" ↔ 0 ≤ projectedOf r ∧ dosOf r < 15) ∧
  (r'.Status = "Nominal" ↔ 0 ≤ projectedOf r ∧ 15 ≤ dosOf r) ∧
  (r'.Status = "CRITICAL" → r'.Alerts = criticalAlert (-(projectedOf r))) ∧
  (r'.Status = "WARNING" → r'.Alerts = warningAlert) ∧
  (r'.Status = "Nominal" → r'.Alerts = "-")

/-- One critical row's contribution to the potential loss:
`shortfall_days * (Daily_Consumption * Revenue_Per_Unit)` (line 153). -/
def lossTerm (r : Row) : ℚ :=
  ((r.Lead_Time_Days : ℚ) - r.Days_of_Supply) *
    ((r.Daily_Consumption : ℚ) * (r.Revenue_Per_Unit : ℚ))

/-- The two inner guards of the impact loop (lines 149 and 151). -/
def innerQ (r : Row) : Bool :=
  strContains r.Alerts "Projected shortfall" &&
    decide (0 < (r.Lead_Time_Days : ℚ) - r.Days_of_Supply)

/-- Spec wording of a qualifying row of the Impact Calculator: status
CRITICAL, a projected-shortfall alert, and a positive recomputed
shortfall. -/
def qualifiesSpec (r : Row) : Bool :=
  (r.Status == "CRITICAL") && innerQ r

/-- Spec wording of the Impact Calculator: sum the loss terms of the
qualifying rows, charge 120,000 once per qualifying row, return
(loss, cost, loss - cost). -/
def specImpact (df : List Row) : ℚ × ℚ × ℚ :=
  (((df.filter qualifiesSpec).map lossTerm).sum,
   120000 * ((df.filter qualifiesSpec).length : ℚ),
   ((df.filter qualifiesSpec).map lossTerm).sum -
     120000 * ((df.filter qualifiesSpec).length : ℚ))

/-- The simplified Impact Calculator of the refinement claim: filter on
status CRITICAL alone, no alert-text match and no positivity guard. -/
def simplifiedImpact (df : List Row) : ℚ × ℚ × ℚ :=
  (((df.filter fun r => r.Status == "CRITICAL").map lossTerm).sum,
   120000 * ((df.filter fun r => r.Status == "CRITICAL").length : ℚ),
   ((df.filter fun r => r.Status == "CRITICAL").map lossTerm).sum -
     120000 * ((df.filter fun r => r.Status == "CRITICAL").length : ℚ))

/-- The documented numeric range of an event's perturbation magnitude. -/
def eventMagnitudeOK (e : Event) : Prop :=
  match e.choice with
  | .portCongestion _ delay => 5 ≤ delay ∧ delay ≤ 10
  | .geopoliticalTension _ delay => 7 ≤ delay ∧ delay ≤ 12
  | .productionSlowdown _ delay => 4 ≤ delay ∧ delay ≤ 8
  | .demandSpike _ factor => 6/5 ≤ factor ∧ factor < 3/2

/-- The part of the draw contracts that makes perturbations non-shrinking:
every delay is nonnegative and every spike factor is at least one. -/
def choiceNondecreasing : EventChoice → Prop
  | .portCongestion _ delay => 0 ≤ delay
  | .geopoliticalTension _ delay => 0 ≤ delay
  | .productionSlowdown _ delay => 0 ≤ delay
  | .demandSpike _ factor => 1 ≤ factor

/-- `r'` differs from `r` at most by a worsened lead time and consumption:
stock is untouched, lead time and consumption never shrink. -/
def rowWorse (r r' : Row) : Prop :=
  r'.On_Hand_Stock = r.On_Hand_Stock ∧
  r.Lead_Time_Days ≤ r'.Lead_Time_Days ∧
  r.Daily_Consumption ≤ r'.Daily_Consumption

/-- The exact (unrounded) days-of-supply ratio of a row. -/
def dosExact (r : Row) : ℚ :=
  (r.On_Hand_Stock : ℚ) / (r.Daily_Consumption : ℚ)

/-- `r'` equals `r` on every field except possibly `Lead_Time_Days`. -/
def sameExceptLead (r r' : Row) : Prop :=
  r'.Component = r.Component ∧ r'.Supplier = r.Supplier ∧
  r'.Origin = r.Origin ∧ r'.Shipping_Lane = r.Shipping_Lane ∧
  r'.On_Hand_Stock = r.On_Hand_Stock ∧
  r'.Daily_Consumption = r.Daily_Consumption ∧
  r'.Revenue_Per_Unit = r.Revenue_Per_Unit ∧
  r'.Secondary_Supplier = r.Secondary_Supplier ∧
  r'.Status = r.Status ∧ r'.Alerts = r.Alerts ∧
  r'.Days_of_Supply = r.Days_of_Supply

/-- `r'` equals `r` on every field except possibly `Daily_Consumption`. -/
def sameExceptCons (r r' : Row) : Prop :=
  r'.Component = r.Component ∧ r'.Supplier = r.Supplier ∧
  r'.Origin = r.Origin ∧ r'.Shipping_Lane = r.Shipping_Lane ∧
  r'.Lead_Time_Days = r.Lead_Time_Days ∧
  r'.On_Hand_Stock = r.On_Hand_Stock ∧
  r'.Revenue_Per_Unit = r.Revenue_Per_Unit ∧
  r'.Secondary_Supplier = r.Secondary_Supplier ∧
  r'.Status = r.Status ∧ r'.Alerts = r.Alerts ∧
  r'.Days_of_Supply = r.Days_of_Supply

/-! ### Concrete data used to instantiate the theorems -/

/-- The first record of the table (the §8 scenario row). -/
def sampleRow : Row :=
  ⟨"CPU Model A", "Intel", "USA", "Trans-Pacific", 25, 15000, 500, 400,
   "AMD", "Nominal", "-", 30⟩

/-- The initial table after one classifier pass: every row is Nominal with
its days-of-supply rounded to one decimal. -/
def classifiedInitial : List Row :=
  get_initial_data.map fun r => { r with Days_of_Supply := dosOf r }

/-- A one-row table whose record has daily consumption zero. -/
def zeroConsTable : List Row :=
  [{ sampleRow with Daily_Consumption := 0 }]

/-- A one-row table with negative on-hand stock and positive consumption. -/
def negTable : List Row :=
  [{ sampleRow with On_Hand_Stock := -10, Daily_Consumption := 10 }]

/-- A single valid demand-spike draw against `negTable`. -/
def negChoices : List EventChoice :=
  [.demandSpike "CPU Model A" (13/10)]

/-- Two valid draws against the initial table: a demand spike on the
Cooling Fan followed by a production slowdown at Nidec.  This run leaves
exactly one CRITICAL row with a 0.1-day shortfall, so its potential loss
(3,650) is far below the 120,000 mitigation premium and the net value is
negative. -/
def c3Choices : List EventChoice :=
  [.demandSpike "Cooling Fan" (73/50), .productionSlowdown "Nidec" 8]

/-! ### Helper lemmas -/

theorem leadsWith_append (n t : List Char) : leadsWith n (n ++ t) = true := by
  induction n with
  | nil => rfl
  | cons a as ih => simp [leadsWith, ih]

theorem occursIn_of_leads (n h : List Char) (hl : leadsWith n h = true) :
    occursIn n h = true := by
  cases h with
  | nil => cases n with
    | nil => rfl
    | cons a as => simp [leadsWith] at hl
  | cons b bs => simp [occursIn, hl]

theorem occursIn_cons (n : List Char) (c : Char) (h : List Char)
    (hh : occursIn n h = true) : occursIn n (c :: h) = true := by
  simp [occursIn, hh]

theorem occursIn_append (pre n t : List Char) :
    occursIn n (pre ++ (n ++ t)) = true := by
  induction pre with
  | nil => exact occursIn_of_leads n (n ++ t) (leadsWith_append n t)
  | cons c cs ih => exact occursIn_cons _ c _ ih

/-- The CRITICAL alert always contains the sentinel substring the Impact
Calculator greps for. -/
theorem strContains_criticalAlert (s : ℚ) :
    strContains (criticalAlert s) "Projected shortfall" = true := by
  have hdata : (criticalAlert s).data =
      "ACTION: ".data ++ ("Projected shortfall".data ++
        (" of ".data ++ (fmt1 s).data ++ " days. Expedite next shipment via Air Freight.".data)) := by
    show ("ACTION: Projected shortfall of " ++ fmt1 s ++
        " days. Expedite next shipment via Air Freight.").data = _
    simp [String.data_append]
  rw [strContains, hdata]
  exact occursIn_append _ _ _

theorem classifyRow_some_cases (r r' : Row) (h : classifyRow r = some r') :
    r.Daily_Consumption ≠ 0 ∧
    ((projectedOf r < 0 ∧
        r' = { r with Days_of_Supply := dosOf r, Status := "CRITICAL",
                      Alerts := criticalAlert (-(projectedOf r)) }) ∨
     (0 ≤ projectedOf r ∧ dosOf r < 15 ∧
        r' = { r with Days_of_Supply := dosOf r, Status := "WARNING",
                      Alerts := warningAlert }) ∨
     (0 ≤ projectedOf r ∧ 15 ≤ dosOf r ∧
        r' = { r with Days_of_Supply := dosOf r, Status := "Nominal",
                      Alerts := "-" })) := by
  unfold classifyRow at h
  split_ifs at h with h0 h1 h2
  · exact ⟨h0, Or.inl ⟨h1, (Option.some.injEq _ _ ▸ h).symm⟩⟩
  · exact ⟨h0, Or.inr (Or.inl ⟨not_lt.mp h1, h2, (Option.some.injEq _ _ ▸ h).symm⟩)⟩
  · exact ⟨h0, Or.inr (Or.inr ⟨not_lt.mp h1, not_lt.mp h2, (Option.some.injEq _ _ ▸ h).symm⟩)⟩

theorem classifyRow_isSome (r : Row) (h : r.Daily_Consumption ≠ 0) :
    (classifyRow r).isSome := by
  unfold classifyRow
  split_ifs <;> simp_all

theorem run_sentinel_agent_forall₂ {df df' : List Row}
    (h : run_sentinel_agent df = some df') :
    List.Forall₂ (fun r r' => classifyRow r = some r') df df' := by
  induction df generalizing df' with
  | nil =>
    simp only [run_sentinel_agent, Option.some.injEq] at h
    subst h; exact List.Forall₂.nil
  | cons r rs ih =>
    simp only [run_sentinel_agent] at h
    rcases hc : classifyRow r with _ | r₀ <;> rw [hc] at h
    · exact absurd h (by simp)
    · rcases hs : run_sentinel_agent rs with _ | rs₀ <;> rw [hs] at h
      · exact absurd h (by simp)
      · simp only [Option.some.injEq] at h
        subst h
        exact List.Forall₂.cons hc (ih hs)

theorem run_sentinel_agent_isSome (df : List Row)
    (h : ∀ r ∈ df, r.Daily_Consumption ≠ 0) :
    (run_sentinel_agent df).isSome := by
  induction df with
  | nil => simp [run_sentinel_agent]
  | cons r rs ih =>
    have hr := classifyRow_isSome r (h r (by simp))
    have hs := ih fun x hx => h x (by simp [hx])
    rcases hc : classifyRow r with _ | r₀
    · rw [hc] at hr; simp at hr
    · rcases hrs : run_sentinel_agent rs with _ | rs₀
      · rw [hrs] at hs; simp at hs
      · simp [run_sentinel_agent, hc, hrs]

theorem foldl_impactStep (l : List Row) (a b : ℚ) :
    l.foldl impactStep (a, b) =
      (a + ((l.filter innerQ).map lossTerm).sum,
       b + AIR_FREIGHT_PREMIUM_PER_SHIPMENT * ((l.filter innerQ).length : ℚ)) := by
  induction l generalizing a b with
  | nil => simp
  | cons r rs ih =>
    by_cases h1 : strContains r.Alerts "Projected shortfall" = true
    · by_cases h2 : (0:ℚ) < (r.Lead_Time_Days : ℚ) - r.Days_of_Supply
      · have hq : innerQ r = true := by simp [innerQ, h1, h2]
        simp only [List.foldl_cons, impactStep, h1, if_true, h2, List.filter_cons, hq]
        rw [ih]
        simp [lossTerm]
        constructor <;> ring
      · have hq : innerQ r = false := by simp [innerQ, h2]
        simp only [List.foldl_cons, impactStep, h1, if_true, h2, if_false, List.filter_cons, hq]
        rw [ih]
        simp
      -- the guard on line 151 fails, the row contributes nothing
    · have hq : innerQ r = false := by simp [innerQ, h1]
      simp only [List.foldl_cons, impactStep, h1, List.filter_cons, hq]
      rw [if_neg (by simp [h1]), ih]
      simp

theorem calculate_business_impact_eq (df : List Row) :
    calculate_business_impact df =
      (((df.filter qualifiesSpec).map lossTerm).sum,
       AIR_FREIGHT_PREMIUM_PER_SHIPMENT * ((df.filter qualifiesSpec).length : ℚ),
       ((df.filter qualifiesSpec).map lossTerm).sum -
         AIR_FREIGHT_PREMIUM_PER_SHIPMENT * ((df.filter qualifiesSpec).length : ℚ)) := by
  have hfilter : (df.filter fun r => r.Status == "CRITICAL").filter innerQ
      = df.filter qualifiesSpec := by
    rw [List.filter_filter]
    exact List.filter_congr fun a _ => by simp [qualifiesSpec, Bool.and_comm]
  show (let critical_items := df.filter fun r => r.Status == "CRITICAL"
        let acc := critical_items.foldl impactStep (0, 0)
        ((acc.1, acc.2, acc.1 - acc.2) : ℚ × ℚ × ℚ)) = _
  simp only [foldl_impactStep, hfilter, zero_add]

theorem simulate_foldAux (choices : List EventChoice) (df : List Row)
    (es : List Event) :
    choices.foldl (fun acc c => (applyEvent acc.1 c, acc.2 ++ [eventOf c])) (df, es) =
      (choices.foldl applyEvent df, es ++ choices.map eventOf) := by
  induction choices generalizing df es with
  | nil => simp
  | cons c cs ih => simp [ih]

theorem simulate_events_eq (df : List Row) (choices : List EventChoice) :
    (simulate_disruptive_events df choices).2 = choices.map eventOf := by
  rw [simulate_disruptive_events, simulate_foldAux]
  simp

theorem simulate_table_eq (df : List Row) (choices : List EventChoice) :
    (simulate_disruptive_events df choices).1 = choices.foldl applyEvent df := by
  rw [simulate_disruptive_events, simulate_foldAux]

theorem classifyRow_idem (r r' : Row) (h : classifyRow r = some r') :
    classifyRow r' = some r' := by
  rcases classifyRow_some_cases r r' h with ⟨h0, hcase⟩
  rcases hcase with ⟨hc, rfl⟩ | ⟨hge, hlt, rfl⟩ | ⟨hge, h15, rfl⟩
  · unfold classifyRow
    split_ifs with g0 g1 g2
    · exact absurd g0 h0
    · rfl
    · exact absurd hc g1
    · exact absurd hc g1
  · unfold classifyRow
    split_ifs with g0 g1 g2
    · exact absurd g0 h0
    · exact absurd g1 (not_lt.mpr hge)
    · rfl
    · exact absurd hlt g2
  · unfold classifyRow
    split_ifs with g0 g1 g2
    · exact absurd g0 h0
    · exact absurd g1 (not_lt.mpr hge)
    · exact absurd g2 (not_lt.mpr h15)
    · rfl

theorem run_sentinel_agent_fixed {df df' : List Row}
    (h : List.Forall₂ (fun r r' => classifyRow r = some r') df df') :
    run_sentinel_agent df' = some df' := by
  induction h with
  | nil => rfl
  | cons hc _ ih =>
    simp [run_sentinel_agent, classifyRow_idem _ _ hc, ih]

theorem pyInt_spike_ge (c : ℤ) (f : ℚ) (hc : 0 ≤ c) (hf : 1 ≤ f) :
    c ≤ pyInt ((c : ℚ) * f) := by
  have hcq : (0:ℚ) ≤ (c : ℚ) := by exact_mod_cast hc
  have hq : (c : ℚ) ≤ (c : ℚ) * f := le_mul_of_one_le_right hcq hf
  rw [pyInt, if_pos (le_trans hcq hq)]
  exact Int.le_floor.mpr hq

theorem validChoice_nondecreasing (df : List Row) (c : EventChoice)
    (h : validChoice df c) : choiceNondecreasing c := by
  cases c <;> simp only [validChoice, choiceNondecreasing] at h ⊢
  · omega
  · omega
  · omega
  · linarith [h.2.1]

theorem applyEventRow_worse (c : EventChoice) (r : Row)
    (hc : choiceNondecreasing c) (hr : 0 ≤ r.Daily_Consumption) :
    rowWorse r (applyEventRow c r) := by
  cases c with
  | portCongestion lane delay =>
    dsimp only [applyEventRow]
    split_ifs
    · exact ⟨rfl, by have hd : (0:ℤ) ≤ delay := hc; show r.Lead_Time_Days ≤ r.Lead_Time_Days + delay; omega, le_refl _⟩
    · exact ⟨rfl, le_refl _, le_refl _⟩
  | geopoliticalTension origin delay =>
    dsimp only [applyEventRow]
    split_ifs
    · exact ⟨rfl, by have hd : (0:ℤ) ≤ delay := hc; show r.Lead_Time_Days ≤ r.Lead_Time_Days + delay; omega, le_refl _⟩
    · exact ⟨rfl, le_refl _, le_refl _⟩
  | productionSlowdown supplier delay =>
    dsimp only [applyEventRow]
    split_ifs
    · exact ⟨rfl, by have hd : (0:ℤ) ≤ delay := hc; show r.Lead_Time_Days ≤ r.Lead_Time_Days + delay; omega, le_refl _⟩
    · exact ⟨rfl, le_refl _, le_refl _⟩
  | demandSpike comp f =>
    dsimp only [applyEventRow]
    split_ifs
    · exact ⟨rfl, le_refl _, pyInt_spike_ge _ _ hr hc⟩
    · exact ⟨rfl, le_refl _, le_refl _⟩

theorem rowWorse_trans {a b c : Row} (h1 : rowWorse a b) (h2 : rowWorse b c) :
    rowWorse a c :=
  ⟨h2.1.trans h1.1, h1.2.1.trans h2.2.1, h1.2.2.trans h2.2.2⟩

theorem applyEvent_worse {df cur : List Row}
    (hd : List.Forall₂ rowWorse df cur)
    (hpos : ∀ r ∈ df, 0 ≤ r.Daily_Consumption)
    (c : EventChoice) (hc : choiceNondecreasing c) :
    List.Forall₂ rowWorse df (applyEvent cur c) := by
  induction hd with
  | nil => exact List.Forall₂.nil
  | @cons a b as bs hab _ ih =>
    show List.Forall₂ rowWorse (a :: as) (applyEventRow c b :: applyEvent bs c)
    exact List.Forall₂.cons
      (rowWorse_trans hab
        (applyEventRow_worse c b hc (le_trans (hpos a (by simp)) hab.2.2)))
      (ih fun x hx => hpos x (by simp [hx]))

theorem foldl_applyEvent_worse (choices : List EventChoice) {df : List Row}
    (hpos : ∀ r ∈ df, 0 ≤ r.Daily_Consumption)
    (hv : ∀ c ∈ choices, choiceNondecreasing c) :
    ∀ cur, List.Forall₂ rowWorse df cur →
      List.Forall₂ rowWorse df (choices.foldl applyEvent cur) := by
  induction choices with
  | nil => exact fun cur h => h
  | cons c cs ih =>
    intro cur h
    exact ih (fun x hx => hv x (by simp [hx]))
      _ (applyEvent_worse h hpos c (hv c (by simp)))

theorem status_CW : ("CRITICAL" : String) ≠ "WARNING" := by decide

theorem status_CN : ("CRITICAL" : String) ≠ "Nominal" := by decide

theorem status_WN : ("WARNING" : String) ≠ "Nominal" := by decide

theorem classifyRow_rowSpec (r r' : Row) (h : classifyRow r = some r') :
    rowSpec r r' := by
  rcases classifyRow_some_cases r r' h with ⟨h0, hcase⟩
  rcases hcase with ⟨hlt, rfl⟩ | ⟨hge, hdl, rfl⟩ | ⟨hge, h15, rfl⟩
  · exact ⟨rfl, Or.inl rfl,
      ⟨fun _ => hlt, fun _ => rfl⟩,
      ⟨fun hS => absurd hS status_CW, fun hw => absurd hlt (not_lt.mpr hw.1)⟩,
      ⟨fun hS => absurd hS status_CN, fun hn => absurd hlt (not_lt.mpr hn.1)⟩,
      fun _ => rfl,
      fun hS => absurd hS status_CW,
      fun hS => absurd hS status_CN⟩
  · exact ⟨rfl, Or.inr (Or.inl rfl),
      ⟨fun hS => absurd hS status_CW.symm, fun hc => absurd hc (not_lt.mpr hge)⟩,
      ⟨fun _ => ⟨hge, hdl⟩, fun _ => rfl⟩,
      ⟨fun hS => absurd hS status_WN, fun hn => absurd hdl (not_lt.mpr hn.2)⟩,
      fun hS => absurd hS status_CW.symm,
      fun _ => rfl,
      fun hS => absurd hS status_WN⟩
  · exact ⟨rfl, Or.inr (Or.inr rfl),
      ⟨fun hS => absurd hS status_CN.symm, fun hc => absurd hc (not_lt.mpr hge)⟩,
      ⟨fun hS => absurd hS status_WN.symm, fun hw => absurd hw.2 (not_lt.mpr h15)⟩,
      ⟨fun _ => ⟨hge, h15⟩, fun _ => rfl⟩,
      fun hS => absurd hS status_CN.symm,
      fun hS => absurd hS status_WN.symm,
      fun _ => rfl⟩

/-! ### Claim theorems -/

/-- C1: for every table and every row, the Status Classifier recomputes
days-of-supply as on-hand stock divided by daily consumption rounded to one
decimal, then assigns exactly one status by priority: CRITICAL with the
shortfall/air-freight alert iff days-of-supply minus lead-time is negative;
otherwise WARNING with the monitor-closely alert iff days-of-supply < 15;
otherwise Nominal with the placeholder alert. -/
theorem run_sentinel_agent_classification (df df' : List Row)
    (h : run_sentinel_agent df = some df') :
    List.Forall₂ rowSpec df df' :=
  (run_sentinel_agent_forall₂ h).imp classifyRow_rowSpec

theorem run_sentinel_agent_classification_witness :
    run_sentinel_agent get_initial_data = some classifiedInitial ∧
    List.Forall₂ rowSpec get_initial_data classifiedInitial :=
  ⟨by decide, run_sentinel_agent_classification _ _ (by decide)⟩

/-- C6: applying the Status Classifier twice with no intervening mutation
yields the same table (hence the same Status, Alerts and Days_of_Supply
values) as applying it once. -/
theorem run_sentinel_agent_idempotent (df df' : List Row)
    (h : run_sentinel_agent df = some df') :
    run_sentinel_agent df' = some df' :=
  run_sentinel_agent_fixed (run_sentinel_agent_forall₂ h)

theorem run_sentinel_agent_idempotent_witness :
    run_sentinel_agent classifiedInitial = some classifiedInitial :=
  run_sentinel_agent_idempotent get_initial_data classifiedInitial (by decide)

/-- C9: the classifier's days-of-supply division is unguarded, so the
error branch of the embedded Option-valued division is reached on a table
with a zero daily consumption; under the precondition that every record's
daily consumption is nonzero, the error branch is unreachable. -/
theorem run_sentinel_agent_division_guard :
    run_sentinel_agent zeroConsTable = none ∧
    ∀ df : List Row, (∀ r ∈ df, r.Daily_Consumption ≠ 0) →
      (run_sentinel_agent df).isSome :=
  ⟨by decide, fun df h => run_sentinel_agent_isSome df h⟩

theorem run_sentinel_agent_division_guard_witness :
    run_sentinel_agent zeroConsTable = none ∧
    (run_sentinel_agent get_initial_data).isSome :=
  ⟨run_sentinel_agent_division_guard.1,
   run_sentinel_agent_division_guard.2 get_initial_data (by decide)⟩

theorem warning_no_shortfall :
    strContains warningAlert "Projected shortfall" = false := by decide

theorem dash_no_shortfall :
    strContains "-" "Projected shortfall" = false := by decide

theorem forall₂_exists_left {α β : Type} {R : α → β → Prop} :
    ∀ {l₁ : List α} {l₂ : List β}, List.Forall₂ R l₁ l₂ →
      ∀ b ∈ l₂, ∃ a, R a b := by
  intro l₁ l₂ h
  induction h with
  | nil => intro b hb; cases hb
  | cons hab _ ih =>
    intro b hb
    rcases List.mem_cons.mp hb with rfl | hb'
    · exact ⟨_, hab⟩
    · exact ih b hb'

theorem classifyRow_critical_props (r r' : Row) (h : classifyRow r = some r') :
    (r'.Status = "CRITICAL" ↔ strContains r'.Alerts "Projected shortfall" = true) ∧
    (r'.Status = "CRITICAL" → 0 < (r'.Lead_Time_Days : ℚ) - r'.Days_of_Supply) := by
  rcases classifyRow_some_cases r r' h with ⟨h0, hcase⟩
  rcases hcase with ⟨hlt, rfl⟩ | ⟨hge, hdl, rfl⟩ | ⟨hge, h15, rfl⟩
  · refine ⟨⟨fun _ => strContains_criticalAlert _, fun _ => rfl⟩, fun _ => ?_⟩
    show 0 < (r.Lead_Time_Days : ℚ) - dosOf r
    unfold projectedOf at hlt
    linarith
  · exact ⟨⟨fun hS => absurd hS status_CW.symm,
      fun hC => absurd (warning_no_shortfall.symm.trans hC) Bool.false_ne_true⟩,
      fun hS => absurd hS status_CW.symm⟩
  · exact ⟨⟨fun hS => absurd hS status_CN.symm,
      fun hC => absurd (dash_no_shortfall.symm.trans hC) Bool.false_ne_true⟩,
      fun hS => absurd hS status_CN.symm⟩

/-- C2: the Impact Calculator considers exactly the CRITICAL rows whose
alert contains a projected-shortfall indication and whose recomputed
shortfall is positive; each contributes its shortfall-days times
consumption times revenue to the loss and exactly 120,000 to the
mitigation cost, and the result is (loss, cost, loss - cost); with no
CRITICAL row the result is (0, 0, 0). -/
theorem calculate_business_impact_spec (df : List Row) :
    calculate_business_impact df = specImpact df ∧
    ((∀ r ∈ df, r.Status ≠ "CRITICAL") → calculate_business_impact df = (0, 0, 0)) := by
  constructor
  · rw [calculate_business_impact_eq]
    rfl
  · intro h
    rw [calculate_business_impact_eq]
    have hnil : df.filter qualifiesSpec = [] := by
      rw [List.filter_eq_nil_iff]
      intro a ha
      simp [qualifiesSpec, h a ha]
    rw [hnil]
    simp

theorem calculate_business_impact_spec_witness :
    calculate_business_impact get_initial_data = specImpact get_initial_data ∧
    calculate_business_impact get_initial_data = (0, 0, 0) :=
  ⟨(calculate_business_impact_spec get_initial_data).1,
   (calculate_business_impact_spec get_initial_data).2 (by decide)⟩

/-- C5: on every classifier output, a row is CRITICAL exactly when its alert
contains "Projected shortfall", every CRITICAL row has a strictly positive
recomputed shortfall, and therefore the Impact Calculator agrees with the
simplified calculator that filters on status alone. -/
theorem critical_iff_shortfall_alert (df df' : List Row)
    (h : run_sentinel_agent df = some df') :
    (∀ r' ∈ df',
      (r'.Status = "CRITICAL" ↔ strContains r'.Alerts "Projected shortfall" = true) ∧
      (r'.Status = "CRITICAL" → 0 < (r'.Lead_Time_Days : ℚ) - r'.Days_of_Supply)) ∧
    calculate_business_impact df' = simplifiedImpact df' := by
  have hrows : ∀ r' ∈ df',
      (r'.Status = "CRITICAL" ↔ strContains r'.Alerts "Projected shortfall" = true) ∧
      (r'.Status = "CRITICAL" → 0 < (r'.Lead_Time_Days : ℚ) - r'.Days_of_Supply) := by
    intro r' hr'
    obtain ⟨r, hr⟩ := forall₂_exists_left (run_sentinel_agent_forall₂ h) r' hr'
    exact classifyRow_critical_props r r' hr
  refine ⟨hrows, ?_⟩
  rw [calculate_business_impact_eq]
  have hfil : df'.filter qualifiesSpec = df'.filter (fun r => r.Status == "CRITICAL") := by
    refine List.filter_congr fun r hr => ?_
    obtain ⟨hiff, hpos⟩ := hrows r hr
    by_cases hS : r.Status = "CRITICAL"
    · have hc : strContains r.Alerts "Projected shortfall" = true := hiff.mp hS
      have hp : 0 < (r.Lead_Time_Days : ℚ) - r.Days_of_Supply := hpos hS
      simp [qualifiesSpec, innerQ, hS, hc, hp]
    · have hc : strContains r.Alerts "Projected shortfall" ≠ true := fun hc => hS (hiff.mpr hc)
      simp [qualifiesSpec, innerQ, hS, hc]
  rw [hfil]
  rfl

theorem critical_iff_shortfall_alert_witness :
    (∀ r' ∈ classifiedInitial,
      (r'.Status = "CRITICAL" ↔ strContains r'.Alerts "Projected shortfall" = true) ∧
      (r'.Status = "CRITICAL" → 0 < (r'.Lead_Time_Days : ℚ) - r'.Days_of_Supply)) ∧
    calculate_business_impact classifiedInitial = simplifiedImpact classifiedInitial :=
  critical_iff_shortfall_alert get_initial_data classifiedInitial (by decide)

/-- C7: each event mutates only the lead-time field (Port Congestion,
Geopolitical Tension, Production Slowdown) or only the daily-consumption
field (Demand Spike) of the rows matching its chosen key; every field of a
non-matching row, and every other field of a matching row, is unchanged;
the table-level simulator applies exactly this per-row update. -/
theorem applyEventRow_frame (r : Row) :
    (∀ lane delay, r.Shipping_Lane ≠ lane →
        applyEventRow (.portCongestion lane delay) r = r) ∧
    (∀ lane delay, r.Shipping_Lane = lane →
        sameExceptLead r (applyEventRow (.portCongestion lane delay) r) ∧
        (applyEventRow (.portCongestion lane delay) r).Lead_Time_Days =
          r.Lead_Time_Days + delay) ∧
    (∀ origin delay, r.Origin ≠ origin →
        applyEventRow (.geopoliticalTension origin delay) r = r) ∧
    (∀ origin delay, r.Origin = origin →
        sameExceptLead r (applyEventRow (.geopoliticalTension origin delay) r) ∧
        (applyEventRow (.geopoliticalTension origin delay) r).Lead_Time_Days =
          r.Lead_Time_Days + delay) ∧
    (∀ supplier delay, r.Supplier ≠ supplier →
        applyEventRow (.productionSlowdown supplier delay) r = r) ∧
    (∀ supplier delay, r.Supplier = supplier →
        sameExceptLead r (applyEventRow (.productionSlowdown supplier delay) r) ∧
        (applyEventRow (.productionSlowdown supplier delay) r).Lead_Time_Days =
          r.Lead_Time_Days + delay) ∧
    (∀ comp factor, r.Component ≠ comp →
        applyEventRow (.demandSpike comp factor) r = r) ∧
    (∀ comp factor, r.Component = comp →
        sameExceptCons r (applyEventRow (.demandSpike comp factor) r) ∧
        (applyEventRow (.demandSpike comp factor) r).Daily_Consumption =
          pyInt ((r.Daily_Consumption : ℚ) * factor)) ∧
    ∀ (df : List Row) (c : EventChoice), applyEvent df c = df.map (applyEventRow c) := by
  refine ⟨?_, ?_, ?_, ?_, ?_, ?_, ?_, ?_, fun _ _ => rfl⟩
  · intro lane delay hne
    dsimp only [applyEventRow]
    rw [if_neg hne]
  · intro lane delay heq
    dsimp only [applyEventRow]
    rw [if_pos heq]
    exact ⟨⟨rfl, rfl, rfl, rfl, rfl, rfl, rfl, rfl, rfl, rfl, rfl⟩, rfl⟩
  · intro origin delay hne
    dsimp only [applyEventRow]
    rw [if_neg hne]
  · intro origin delay heq
    dsimp only [applyEventRow]
    rw [if_pos heq]
    exact ⟨⟨rfl, rfl, rfl, rfl, rfl, rfl, rfl, rfl, rfl, rfl, rfl⟩, rfl⟩
  · intro supplier delay hne
    dsimp only [applyEventRow]
    rw [if_neg hne]
  · intro supplier delay heq
    dsimp only [applyEventRow]
    rw [if_pos heq]
    exact ⟨⟨rfl, rfl, rfl, rfl, rfl, rfl, rfl, rfl, rfl, rfl, rfl⟩, rfl⟩
  · intro comp factor hne
    dsimp only [applyEventRow]
    rw [if_neg hne]
  · intro comp factor heq
    dsimp only [applyEventRow]
    rw [if_pos heq]
    exact ⟨⟨rfl, rfl, rfl, rfl, rfl, rfl, rfl, rfl, rfl, rfl, rfl⟩, rfl⟩

theorem applyEventRow_frame_witness :
    applyEventRow (.portCongestion "Intra-Asia" 7) sampleRow = sampleRow ∧
    sameExceptLead sampleRow (applyEventRow (.portCongestion "Trans-Pacific" 7) sampleRow) ∧
    (applyEventRow (.portCongestion "Trans-Pacific" 7) sampleRow).Lead_Time_Days =
      sampleRow.Lead_Time_Days + 7 ∧
    sameExceptCons sampleRow (applyEventRow (.demandSpike "CPU Model A" (13/10)) sampleRow) :=
  ⟨(applyEventRow_frame sampleRow).1 "Intra-Asia" 7 (by decide),
   ((applyEventRow_frame sampleRow).2.1 "Trans-Pacific" 7 (by decide)).1,
   ((applyEventRow_frame sampleRow).2.1 "Trans-Pacific" 7 (by decide)).2,
   ((applyEventRow_frame sampleRow).2.2.2.2.2.2.2.1 "CPU Model A" (13/10) (by decide)).1⟩

/-- C4: under the random-draw contracts, a simulator invocation produces 1
or 2 events, and each event's magnitude lies in its documented range:
Port Congestion in [5,10], Geopolitical Tension in [7,12], Production
Slowdown in [4,8], Demand Spike factor in [1.20, 1.50). -/
theorem simulate_events_count_and_ranges (df : List Row) (choices : List EventChoice)
    (hn : choices.length = 1 ∨ choices.length = 2)
    (hv : ∀ c ∈ choices, validChoice df c) :
    ((simulate_disruptive_events df choices).2.length = 1 ∨
     (simulate_disruptive_events df choices).2.length = 2) ∧
    ∀ e ∈ (simulate_disruptive_events df choices).2, eventMagnitudeOK e := by
  rw [simulate_events_eq]
  constructor
  · simpa using hn
  · intro e he
    rcases List.mem_map.mp he with ⟨c, hc, rfl⟩
    have hvc := hv c hc
    cases c <;> simp only [validChoice] at hvc <;>
      exact ⟨hvc.2.1, hvc.2.2⟩

theorem simulate_events_count_and_ranges_witness :
    ((simulate_disruptive_events get_initial_data c3Choices).2.length = 1 ∨
     (simulate_disruptive_events get_initial_data c3Choices).2.length = 2) ∧
    ∀ e ∈ (simulate_disruptive_events get_initial_data c3Choices).2, eventMagnitudeOK e :=
  simulate_events_count_and_ranges get_initial_data c3Choices (by decide) (by decide)

/-- C3 counterexample: a fully valid run (demand spike on the Cooling Fan by
factor 1.46, then a production slowdown of 8 days at Nidec) returns the
impact triple (3650, 120000, -116350), yet the caller's history append
records net value 0, not -116350. -/
theorem history_clamps_negative_net :
    (∀ c ∈ c3Choices, validChoice get_initial_data c) ∧
    (run_simulation get_initial_data c3Choices).map (fun t => t.2.2) =
      some (3650, 120000, -116350) ∧
    (run_simulation get_initial_data c3Choices).map
      (fun t => historyAppend [] t.2.2) = some [(1, 0)] ∧
    (0 : ℚ) ≠ -116350 := by decide

/-- C3 amended: the appended history entry is (previous length + 1,
max(net value, 0)): a positive net value is recorded exactly, a zero or
negative one is recorded as 0. -/
theorem historyAppend_clamps (history : List (ℕ × ℚ)) (impact : ℚ × ℚ × ℚ) :
    historyAppend history impact =
      history ++ [(history.length + 1, max impact.2.2 0)] ∧
    ∀ (df : List Row) (choices : List EventChoice),
      (run_simulation df choices).map (fun t => historyAppend history t.2.2) =
      (run_simulation df choices).map
        (fun t => history ++ [(history.length + 1, max t.2.2.2.2 0)]) := by
  have hmax : ∀ x : ℚ, (if x > 0 then x else 0) = max x 0 := by
    intro x
    rcases le_or_lt x 0 with hx | hx
    · rw [if_neg (not_lt.mpr hx), max_eq_right hx]
    · rw [if_pos hx, max_eq_left hx.le]
  constructor
  · rw [historyAppend, hmax]
  · intro df choices
    cases hrun : run_simulation df choices with
    | none => rfl
    | some t => simp [historyAppend, hmax]

/-- C8 counterexample: the builder does not initialize alert text to the
empty string; every row's alert is the placeholder dash. -/
theorem initial_alert_not_empty :
    ¬ (∀ r ∈ get_initial_data, r.Alerts = "") ∧
    ∀ r ∈ get_initial_data, r.Alerts = "-" := by decide

/-- C8 amended: the builder deterministically produces exactly 8 records
with status "Nominal", the placeholder alert "-", and days-of-supply equal
to on-hand stock divided by daily consumption, for every row. -/
theorem get_initial_data_spec :
    get_initial_data.length = 8 ∧
    ∀ r ∈ get_initial_data,
      r.Status = "Nominal" ∧ r.Alerts = "-" ∧
      r.Days_of_Supply = (r.On_Hand_Stock : ℚ) / (r.Daily_Consumption : ℚ) := by decide

theorem get_initial_data_spec_witness :
    get_initial_data.length = 8 ∧
    (sampleRow.Status = "Nominal" ∧ sampleRow.Alerts = "-" ∧
     sampleRow.Days_of_Supply = (sampleRow.On_Hand_Stock : ℚ) / (sampleRow.Daily_Consumption : ℚ)) :=
  ⟨get_initial_data_spec.1, get_initial_data_spec.2 sampleRow (by decide)⟩

/-- C10 counterexample: with positive daily consumption but negative
on-hand stock, a valid demand spike increases the days-of-supply ratio, so
the days-of-supply consequence of the claim fails as stated. -/
theorem events_monotone_counterexample :
    (∀ r ∈ negTable, 0 < r.Daily_Consumption) ∧
    (∀ c ∈ negChoices, validChoice negTable c) ∧
    (negChoices.length = 1 ∨ negChoices.length = 2) ∧
    (simulate_disruptive_events negTable negChoices).1.length = 1 ∧
    ∃ r ∈ negTable, ∃ r' ∈ (simulate_disruptive_events negTable negChoices).1,
      dosExact r < dosExact r' := by decide

/-- C10 amended: on tables with positive daily consumption and nonnegative
on-hand stock, no valid event sequence decreases any row's lead time or
daily consumption, and consequently each row's days-of-supply ratio and
projected shortfall never improve. -/
theorem events_only_worsen (df : List Row) (choices : List EventChoice)
    (hpos : ∀ r ∈ df, 0 < r.Daily_Consumption ∧ 0 ≤ r.On_Hand_Stock)
    (hv : ∀ c ∈ choices, validChoice df c) :
    List.Forall₂ (fun r r' =>
      r.Lead_Time_Days ≤ r'.Lead_Time_Days ∧
      r.Daily_Consumption ≤ r'.Daily_Consumption ∧
      dosExact r' ≤ dosExact r ∧
      dosExact r' - (r'.Lead_Time_Days : ℚ) ≤ dosExact r - (r.Lead_Time_Days : ℚ))
      df (simulate_disruptive_events df choices).1 := by
  rw [simulate_table_eq]
  have hw : List.Forall₂ rowWorse df (choices.foldl applyEvent df) :=
    foldl_applyEvent_worse choices (fun r hr => (hpos r hr).1.le)
      (fun c hc => validChoice_nondecreasing df c (hv c hc)) df
      (List.forall₂_same.mpr fun r _ => ⟨rfl, le_refl _, le_refl _⟩)
  clear hv
  revert hpos
  generalize List.foldl applyEvent df choices = cur at hw ⊢
  induction hw with
  | nil => exact fun _ => List.Forall₂.nil
  | @cons a b as bs hab htl ih =>
    intro hpos
    obtain ⟨hstock, hlead, hcons⟩ := hab
    have hpa := hpos a (by simp)
    have hc0 : (0:ℚ) < (a.Daily_Consumption : ℚ) := by exact_mod_cast hpa.1
    have hcb : (a.Daily_Consumption : ℚ) ≤ (b.Daily_Consumption : ℚ) := by exact_mod_cast hcons
    have hs0 : (0:ℚ) ≤ (a.On_Hand_Stock : ℚ) := by exact_mod_cast hpa.2
    have hdos : dosExact b ≤ dosExact a := by
      rw [dosExact, dosExact, hstock]
      exact div_le_div_of_nonneg_left hs0 hc0 hcb
    have hleadq : (a.Lead_Time_Days : ℚ) ≤ (b.Lead_Time_Days : ℚ) := by exact_mod_cast hlead
    exact List.Forall₂.cons ⟨hlead, hcons, hdos, by linarith⟩
      (ih fun x hx => hpos x (by simp [hx]))

theorem events_only_worsen_witness :
    List.Forall₂ (fun r r' =>
      r.Lead_Time_Days ≤ r'.Lead_Time_Days ∧
      r.Daily_Consumption ≤ r'.Daily_Consumption ∧
      dosExact r' ≤ dosExact r ∧
      dosExact r' - (r'.Lead_Time_Days : ℚ) ≤ dosExact r - (r.Lead_Time_Days : ℚ))
      get_initial_data (simulate_disruptive_events get_initial_data c3Choices).1 :=
  events_only_worsen get_initial_data c3Choices (by decide) (by decide)

end Sentinel
